import Mathlib

/-!
Shallow embedding of `src/sqlast/mod.rs` of sqlparser-rs: the SQL AST node
types and their canonical renderers (`ToString` impls), together with the
enumeration FromStr impls (`SQLWindowFrameUnits`, `FileFormat`).

Rust `String` is Lean `String`; `Vec<T>` is `List T`; `Option<T>` is
`Option T`; `Result<T, E>` is `Except E T`.  A Rust `to_string` that can
panic (the `unwrap` calls in the `SQLCreateTable` arm) is embedded as a
function into `Option String`, `none` marking the panic.

The sibling modules `query`, `value`, `sqltype`, `ddl`, `sql_operator` and
`sqlparser` are not part of the rendered file; `mod.rs` only ever calls
`to_string` on their types, so each is carried as its rendered text.
-/

namespace SqlAst

/-- Identifier name, in the originally quoted form (source: `pub type SQLIdent = String`). -/
abbrev SQLIdent := String

/-- Modelled from the spec: the query type (`SQLQuery`) lives in the missing
`query` module; `mod.rs` only uses its `to_string`, and the spec treats query
internals as an external collaborator whose rendering is reproduced verbatim,
so it is represented by its rendered text. -/
structure SQLQuery where
  rendered : String
deriving DecidableEq

def SQLQuery.to_string (q : SQLQuery) : String := q.rendered

/-- Modelled from the spec: literal values (`Value`) live in the missing
`value` module; only their rendered text is used here. -/
structure Value where
  rendered : String
deriving DecidableEq

def Value.to_string (v : Value) : String := v.rendered

/-- Modelled from the spec: SQL data types (`SQLType`) live in the missing
`sqltype` module; only their rendered text is used here. -/
structure SQLType where
  rendered : String
deriving DecidableEq

def SQLType.to_string (t : SQLType) : String := t.rendered

/-- Modelled from the spec: operators (`SQLOperator`) live in the missing
`sql_operator` module; only their rendered text is used here. -/
structure SQLOperator where
  rendered : String
deriving DecidableEq

def SQLOperator.to_string (op : SQLOperator) : String := op.rendered

/-- Modelled from the spec: table constraints (`TableConstraint`) live in the
missing `ddl` module; only their rendered text is used here. -/
structure TableConstraint where
  rendered : String
deriving DecidableEq

def TableConstraint.to_string (c : TableConstraint) : String := c.rendered

/-- Modelled from the spec: ALTER TABLE operations (`AlterTableOperation`)
live in the missing `ddl` module ("operation text owned by an external
DDL-operation type"); only their rendered text is used here. -/
structure AlterTableOperation where
  rendered : String
deriving DecidableEq

/-- Modelled from the spec: ORDER BY expressions (`SQLOrderByExpr`) live in
the missing `query` module; only their rendered text is used here. -/
structure SQLOrderByExpr where
  rendered : String
deriving DecidableEq

def SQLOrderByExpr.to_string (o : SQLOrderByExpr) : String := o.rendered

set_option linter.dupNamespace false in
/-- Modelled from the spec: `ParserError` lives in the missing `sqlparser`
module; the spec describes "a single error kind carrying a descriptive
message", so it is one constructor holding the message string
(source: `use crate::sqlparser::ParserError`). -/
inductive ParserError where
  | ParserError (msg : String)
deriving DecidableEq

/-- Like `vec.join(", ")`, but for any types implementing ToString
(source: `fn comma_separated_string`). -/
def comma_separated_string {α : Type} (f : α → String) (l : List α) : String :=
  String.intercalate ", " (l.map f)

/-- A name of a table, view, custom type, etc., possibly multi-part
(source: `pub struct SQLObjectName(pub Vec<SQLIdent>)`). -/
structure SQLObjectName where
  parts : List SQLIdent
deriving DecidableEq

def SQLObjectName.to_string (n : SQLObjectName) : String :=
  String.intercalate "." n.parts

/-- Source: `enum SQLDateTimeField`. -/
inductive SQLDateTimeField where
  | Year
  | Month
  | Day
  | Hour
  | Minute
  | Second
deriving DecidableEq

/-- Source: `impl ToString for SQLDateTimeField`. -/
def SQLDateTimeField.to_string : SQLDateTimeField → String
  | .Year => "YEAR"
  | .Month => "MONTH"
  | .Day => "DAY"
  | .Hour => "HOUR"
  | .Minute => "MINUTE"
  | .Second => "SECOND"

/-- External table's available file format (source: `enum FileFormat`). -/
inductive FileFormat where
  | TEXTFILE
  | SEQUENCEFILE
  | ORC
  | PARQUET
  | AVRO
  | RCFILE
  | JSONFILE
deriving DecidableEq

/-- Source: `impl ToString for FileFormat`; note the `JSONFILE` arm. -/
def FileFormat.to_string : FileFormat → String
  | .TEXTFILE => "TEXTFILE"
  | .SEQUENCEFILE => "SEQUENCEFILE"
  | .ORC => "ORC"
  | .PARQUET => "PARQUET"
  | .AVRO => "AVRO"
  | .RCFILE => "RCFILE"
  | .JSONFILE => "TEXTFILE"

/-- Source: `impl FromStr for FileFormat`. -/
def FileFormat.from_str (s : String) : Except ParserError FileFormat :=
  if s = "TEXTFILE" then .ok .TEXTFILE
  else if s = "SEQUENCEFILE" then .ok .SEQUENCEFILE
  else if s = "ORC" then .ok .ORC
  else if s = "PARQUET" then .ok .PARQUET
  else if s = "AVRO" then .ok .AVRO
  else if s = "RCFILE" then .ok .RCFILE
  else if s = "JSONFILE" then .ok .JSONFILE
  else .error (.ParserError ("Unexpected file format: " ++ s))

/-- Spec-side comparison definition, following the spec's words: each file
format variant's own keyword spelling, used to state that rendering agrees
with it on every variant except `JSONFILE`. -/
def FileFormat.variantName : FileFormat → String
  | .TEXTFILE => "TEXTFILE"
  | .SEQUENCEFILE => "SEQUENCEFILE"
  | .ORC => "ORC"
  | .PARQUET => "PARQUET"
  | .AVRO => "AVRO"
  | .RCFILE => "RCFILE"
  | .JSONFILE => "JSONFILE"

/-- Source: `enum SQLWindowFrameUnits`. -/
inductive SQLWindowFrameUnits where
  | Rows
  | Range
  | Groups
deriving DecidableEq

/-- Source: `impl ToString for SQLWindowFrameUnits`. -/
def SQLWindowFrameUnits.to_string : SQLWindowFrameUnits → String
  | .Rows => "ROWS"
  | .Range => "RANGE"
  | .Groups => "GROUPS"

/-- Source: `impl FromStr for SQLWindowFrameUnits`. -/
def SQLWindowFrameUnits.from_str (s : String) : Except ParserError SQLWindowFrameUnits :=
  if s = "ROWS" then .ok .Rows
  else if s = "RANGE" then .ok .Range
  else if s = "GROUPS" then .ok .Groups
  else .error (.ParserError ("Expected ROWS, RANGE, or GROUPS, found: " ++ s))

/-- Source: `enum SQLWindowFrameBound` (`u64` payloads become `Nat`; they are
only displayed, never computed with). -/
inductive SQLWindowFrameBound where
  | CurrentRow
  | Preceding (n : Option Nat)
  | Following (n : Option Nat)
deriving DecidableEq

/-- Source: `impl ToString for SQLWindowFrameBound`. -/
def SQLWindowFrameBound.to_string : SQLWindowFrameBound → String
  | .CurrentRow => "CURRENT ROW"
  | .Preceding none => "UNBOUNDED PRECEDING"
  | .Following none => "UNBOUNDED FOLLOWING"
  | .Preceding (some n) => toString n ++ " PRECEDING"
  | .Following (some n) => toString n ++ " FOLLOWING"

/-- Source: `struct SQLWindowFrame`. -/
structure SQLWindowFrame where
  units : SQLWindowFrameUnits
  start_bound : SQLWindowFrameBound
  end_bound : Option SQLWindowFrameBound
deriving DecidableEq

/-- Source: `enum SQLObjectType`. -/
inductive SQLObjectType where
  | Table
  | View
deriving DecidableEq

/-- Source: `impl SQLObjectType { fn to_string }`. -/
def SQLObjectType.to_string : SQLObjectType → String
  | .Table => "TABLE"
  | .View => "VIEW"

/-- Source: `struct SQLOption`. -/
structure SQLOption where
  name : SQLIdent
  value : Value
deriving DecidableEq

/-- Source: `impl ToString for SQLOption` (`name.to_string()` on a `String` is the string itself). -/
def SQLOption.to_string (o : SQLOption) : String :=
  o.name ++ " = " ++ o.value.to_string

mutual

/-- An SQL expression of any type (source: `enum ASTNode`). -/
inductive ASTNode where
  | SQLIdentifier (s : SQLIdent)
  | SQLWildcard
  | SQLQualifiedWildcard (q : List SQLIdent)
  | SQLCompoundIdentifier (s : List SQLIdent)
  | SQLIsNull (a : ASTNode)
  | SQLIsNotNull (a : ASTNode)
  | SQLInList (expr : ASTNode) (list : List ASTNode) (negated : Bool)
  | SQLInSubquery (expr : ASTNode) (subquery : SQLQuery) (negated : Bool)
  | SQLBetween (expr : ASTNode) (negated : Bool) (low : ASTNode) (high : ASTNode)
  | SQLBinaryExpr (left : ASTNode) (op : SQLOperator) (right : ASTNode)
  | SQLCast (expr : ASTNode) (data_type : SQLType)
  | SQLExtract (field : SQLDateTimeField) (expr : ASTNode)
  | SQLCollate (expr : ASTNode) (collation : SQLObjectName)
  | SQLNested (a : ASTNode)
  | SQLUnary (operator : SQLOperator) (expr : ASTNode)
  | SQLValue (v : Value)
  | SQLFunction (f : SQLFunction)
  | SQLCase (operand : Option ASTNode) (conditions : List ASTNode)
      (results : List ASTNode) (else_result : Option ASTNode)
  | SQLExists (q : SQLQuery)
  | SQLSubquery (q : SQLQuery)

/-- SQL function (source: `struct SQLFunction`). -/
inductive SQLFunction where
  | mk (name : SQLObjectName) (args : List ASTNode)
      (over : Option SQLWindowSpec) (distinct : Bool)

/-- A window specification (source: `struct SQLWindowSpec`). -/
inductive SQLWindowSpec where
  | mk (partition_by : List ASTNode) (order_by : List SQLOrderByExpr)
      (window_frame : Option SQLWindowFrame)

end

mutual

/-- Source: `impl ToString for ASTNode`. -/
def ASTNode.to_string : ASTNode → String
  | .SQLIdentifier s => s
  | .SQLWildcard => "*"
  | .SQLQualifiedWildcard q => String.intercalate "." q ++ ".*"
  | .SQLCompoundIdentifier s => String.intercalate "." s
  | .SQLIsNull a => a.to_string ++ " IS NULL"
  | .SQLIsNotNull a => a.to_string ++ " IS NOT NULL"
  | .SQLInList expr list negated =>
    expr.to_string ++ " " ++ (if negated then "NOT " else "") ++ "IN (" ++
      String.intercalate ", " (ASTNode.listToString list) ++ ")"
  | .SQLInSubquery expr subquery negated =>
    expr.to_string ++ " " ++ (if negated then "NOT " else "") ++ "IN (" ++
      subquery.to_string ++ ")"
  | .SQLBetween expr negated low high =>
    expr.to_string ++ " " ++ (if negated then "NOT " else "") ++ "BETWEEN " ++
      low.to_string ++ " AND " ++ high.to_string
  | .SQLBinaryExpr left op right =>
    left.to_string ++ " " ++ op.to_string ++ " " ++ right.to_string
  | .SQLCast expr data_type =>
    "CAST(" ++ expr.to_string ++ " AS " ++ data_type.to_string ++ ")"
  | .SQLExtract field expr =>
    "EXTRACT(" ++ field.to_string ++ " FROM " ++ expr.to_string ++ ")"
  | .SQLCollate expr collation =>
    expr.to_string ++ " COLLATE " ++ collation.to_string
  | .SQLNested a => "(" ++ a.to_string ++ ")"
  | .SQLUnary operator expr => operator.to_string ++ " " ++ expr.to_string
  | .SQLValue v => v.to_string
  | .SQLFunction f => f.to_string
  | .SQLCase operand conditions results else_result =>
    "CASE" ++
      (match operand with
       | some o => " " ++ o.to_string
       | none => "") ++
      String.join (ASTNode.whenThenList conditions results) ++
      (match else_result with
       | some e => " ELSE " ++ e.to_string
       | none => "") ++
      " END"
  | .SQLExists q => "EXISTS (" ++ q.to_string ++ ")"
  | .SQLSubquery q => "(" ++ q.to_string ++ ")"
termination_by a => sizeOf a

/-- Renders each node of a list (the `map(to_string)` step inside `comma_separated_string`). -/
def ASTNode.listToString : List ASTNode → List String
  | [] => []
  | a :: rest => a.to_string :: ASTNode.listToString rest
termination_by l => sizeOf l

/-- The `conditions.iter().zip(results).map(...)` step of the `SQLCase` arm:
one `" WHEN <cond> THEN <result>"` item per zipped pair. -/
def ASTNode.whenThenList : List ASTNode → List ASTNode → List String
  | c :: cs, r :: rs =>
    (" WHEN " ++ c.to_string ++ " THEN " ++ r.to_string) :: ASTNode.whenThenList cs rs
  | _, _ => []
termination_by cs rs => sizeOf cs + sizeOf rs

/-- Source: `impl ToString for SQLFunction`. -/
def SQLFunction.to_string : SQLFunction → String
  | .mk name args over distinct =>
    let s := name.to_string ++ "(" ++ (if distinct then "DISTINCT " else "") ++
      String.intercalate ", " (ASTNode.listToString args) ++ ")"
    match over with
    | some o => s ++ " OVER (" ++ o.to_string ++ ")"
    | none => s
termination_by f => sizeOf f

/-- Source: `impl ToString for SQLWindowSpec` (clauses are pushed into a
vector and joined with a single space). -/
def SQLWindowSpec.to_string : SQLWindowSpec → String
  | .mk partition_by order_by window_frame =>
    let clauses : List String :=
      (if partition_by.isEmpty then [] else
        ["PARTITION BY " ++ String.intercalate ", " (ASTNode.listToString partition_by)]) ++
      (if order_by.isEmpty then [] else
        ["ORDER BY " ++ comma_separated_string SQLOrderByExpr.to_string order_by]) ++
      (match window_frame with
       | none => []
       | some wf =>
         match wf.end_bound with
         | some end_bound =>
           [wf.units.to_string ++ " BETWEEN " ++ wf.start_bound.to_string ++
             " AND " ++ end_bound.to_string]
         | none => [wf.units.to_string ++ " " ++ wf.start_bound.to_string])
    String.intercalate " " clauses
termination_by w => sizeOf w
decreasing_by all_goals (simp_wf; omega)

end

/-- SQL assignment `foo = expr` as used in SQLUpdate (source: `struct SQLAssignment`). -/
structure SQLAssignment where
  id : SQLIdent
  value : ASTNode

/-- Source: `impl ToString for SQLAssignment`. -/
def SQLAssignment.to_string (a : SQLAssignment) : String :=
  a.id ++ " = " ++ a.value.to_string

/-- SQL column definition (source: `struct SQLColumnDef`). -/
structure SQLColumnDef where
  name : SQLIdent
  data_type : SQLType
  is_primary : Bool
  is_unique : Bool
  default : Option ASTNode
  allow_null : Bool

/-- Source: `impl ToString for SQLColumnDef`. -/
def SQLColumnDef.to_string (c : SQLColumnDef) : String :=
  let s := c.name ++ " " ++ c.data_type.to_string
  let s := if c.is_primary then s ++ " PRIMARY KEY" else s
  let s := if c.is_unique then s ++ " UNIQUE" else s
  let s := match c.default with
    | some d => s ++ " DEFAULT " ++ d.to_string
    | none => s
  if c.allow_null then s else s ++ " NOT NULL"

/-- A top-level statement (source: `enum SQLStatement`; `Box` is erased). -/
inductive SQLStatement where
  | SQLQuery (q : SQLQuery)
  | SQLInsert (table_name : SQLObjectName) (columns : List SQLIdent) (source : SQLQuery)
  | SQLCopy (table_name : SQLObjectName) (columns : List SQLIdent)
      (values : List (Option String))
  | SQLUpdate (table_name : SQLObjectName) (assignments : List SQLAssignment)
      (selection : Option ASTNode)
  | SQLDelete (table_name : SQLObjectName) (selection : Option ASTNode)
  | SQLCreateView (name : SQLObjectName) (columns : List SQLIdent) (query : SQLQuery)
      (materialized : Bool) (with_options : List SQLOption)
  | SQLCreateTable (name : SQLObjectName) (columns : List SQLColumnDef)
      (constraints : List TableConstraint) (with_options : List SQLOption)
      (external : Bool) (file_format : Option FileFormat) (location : Option String)
  | SQLAlterTable (name : SQLObjectName) (operation : AlterTableOperation)
  | SQLDrop (object_type : SQLObjectType) (if_exists : Bool)
      (names : List SQLObjectName) (cascade : Bool)
  | SQLTransaction (stmts : List SQLStatement)

mutual

/-- Source: `impl ToString for SQLStatement`.  The Rust function returns
`String` but panics on the two `unwrap()` calls in the `SQLCreateTable` arm
when `external` is set without a file format or location; the panic is
embedded as `none`. -/
def SQLStatement.to_string : SQLStatement → Option String
  | .SQLQuery q => some q.to_string
  | .SQLInsert table_name columns source =>
    some ("INSERT INTO " ++ table_name.to_string ++ " " ++
      (if columns.isEmpty then "" else
        "(" ++ String.intercalate ", " columns ++ ") ") ++
      source.to_string)
  | .SQLCopy table_name columns values =>
    some ("COPY " ++ table_name.to_string ++
      (if columns.isEmpty then "" else
        " (" ++ comma_separated_string (fun c => c) columns ++ ")") ++
      " FROM stdin; " ++
      (if values.isEmpty then "" else
        "\n" ++ String.intercalate "\t"
          (values.map (fun v => v.getD "\\N"))) ++
      "\n\\.")
  | .SQLUpdate table_name assignments selection =>
    some ("UPDATE " ++ table_name.to_string ++
      (if assignments.isEmpty then "" else
        " SET " ++ comma_separated_string SQLAssignment.to_string assignments) ++
      (match selection with
       | some sel => " WHERE " ++ sel.to_string
       | none => ""))
  | .SQLDelete table_name selection =>
    some ("DELETE FROM " ++ table_name.to_string ++
      (match selection with
       | some sel => " WHERE " ++ sel.to_string
       | none => ""))
  | .SQLCreateView name columns query materialized with_options =>
    let modifier := if materialized then " MATERIALIZED" else ""
    let with_options_str := if with_options.isEmpty then "" else
      " WITH (" ++ comma_separated_string SQLOption.to_string with_options ++ ")"
    let columns_str := if columns.isEmpty then "" else
      " (" ++ comma_separated_string (fun c => c) columns ++ ")"
    some ("CREATE" ++ modifier ++ " VIEW " ++ name.to_string ++
      with_options_str ++ columns_str ++ " AS " ++ query.to_string)
  | .SQLCreateTable name columns constraints with_options external file_format location =>
    let s := "CREATE " ++ (if external then "EXTERNAL " else "") ++ "TABLE " ++
      name.to_string ++ " (" ++ comma_separated_string SQLColumnDef.to_string columns
    let s := if constraints.isEmpty then s else
      s ++ ", " ++ comma_separated_string TableConstraint.to_string constraints
    let s := s ++ ")"
    let finish := fun (s : String) =>
      if with_options.isEmpty then s else
        s ++ " WITH (" ++ comma_separated_string SQLOption.to_string with_options ++ ")"
    if external then
      match file_format, location with
      | some ff, some loc =>
        some (finish (s ++ " STORED AS " ++ ff.to_string ++ " LOCATION '" ++ loc ++ "'"))
      | _, _ => none
    else
      some (finish s)
  | .SQLAlterTable name operation =>
    some ("ALTER TABLE " ++ name.to_string ++ " " ++ operation.rendered)
  | .SQLDrop object_type if_exists names cascade =>
    some ("DROP " ++ object_type.to_string ++
      (if if_exists then " IF EXISTS" else "") ++ " " ++
      comma_separated_string SQLObjectName.to_string names ++
      (if cascade then " CASCADE" else ""))
  | .SQLTransaction stmts =>
    match SQLStatement.listToString stmts with
    | some rs => some ("BEGIN;\n" ++ String.intercalate "\n" rs ++ "\nCOMMIT;")
    | none => none

/-- The `stmts.iter().map(|s| s.to_string())` step of the `SQLTransaction`
arm; a panic in any member propagates. -/
def SQLStatement.listToString : List SQLStatement → Option (List String)
  | [] => some []
  | s :: rest =>
    match SQLStatement.to_string s, SQLStatement.listToString rest with
    | some r, some rs => some (r :: rs)
    | _, _ => none

end

/-! Helper lemmas shared by the claim theorems. -/

/-- The list-rendering helper agrees with `List.map` of the renderer. -/
theorem ASTNode.listToString_eq_map (l : List ASTNode) :
    ASTNode.listToString l = l.map ASTNode.to_string := by
  induction l with
  | nil => simp [ASTNode.listToString]
  | cons a rest ih => simp [ASTNode.listToString, ih]

/-- The WHEN/THEN helper is the map of the pair renderer over the zip of the
two lists, exactly as `conditions.iter().zip(results)` in the source. -/
theorem ASTNode.whenThenList_eq_zip (cs rs : List ASTNode) :
    ASTNode.whenThenList cs rs =
      (cs.zip rs).map (fun p => " WHEN " ++ p.1.to_string ++ " THEN " ++ p.2.to_string) := by
  induction cs generalizing rs with
  | nil => simp [ASTNode.whenThenList]
  | cons c cs ih =>
    cases rs with
    | nil => simp [ASTNode.whenThenList]
    | cons r rs => simp [ASTNode.whenThenList, ih]

/-- Accumulator homomorphism for the loop inside `String.intercalate`. -/
theorem intercalate_go_acc (s a b : String) (l : List String) :
    String.intercalate.go (a ++ b) s l = a ++ String.intercalate.go b s l := by
  induction l generalizing b with
  | nil => simp [String.intercalate.go]
  | cons x xs ih =>
    simp only [String.intercalate.go, String.append_assoc, ih]

/-- C1: for every `SQLCreateTable` statement satisfying the precondition
`external = true → file_format is Some ∧ location is Some`, rendering
succeeds (the unwrap/panic branches, embedded as `none`, are unreachable),
and when `external` is set the output appends
`" STORED AS <format> LOCATION '<path>'"` directly after the closing
parenthesis of the column/constraint list. -/
theorem C1_create_table_external_total (name : SQLObjectName)
    (columns : List SQLColumnDef) (constraints : List TableConstraint)
    (with_options : List SQLOption) (external : Bool)
    (file_format : Option FileFormat) (location : Option String)
    (h : external = true → file_format.isSome = true ∧ location.isSome = true) :
    (SQLStatement.to_string (.SQLCreateTable name columns constraints with_options
        external file_format location)).isSome = true ∧
    (∀ ff loc, external = true → file_format = some ff → location = some loc →
      SQLStatement.to_string (.SQLCreateTable name columns constraints with_options
          external file_format location) =
        some ("CREATE EXTERNAL TABLE " ++ name.to_string ++ " (" ++
            comma_separated_string SQLColumnDef.to_string columns ++
            (if constraints.isEmpty then "" else
              ", " ++ comma_separated_string TableConstraint.to_string constraints) ++
            ")" ++ " STORED AS " ++ ff.to_string ++ " LOCATION '" ++ loc ++ "'" ++
            (if with_options.isEmpty then "" else
              " WITH (" ++ comma_separated_string SQLOption.to_string with_options ++ ")"))) := by
  constructor
  · cases external with
    | false => simp [SQLStatement.to_string]
    | true =>
      obtain ⟨hf, hl⟩ := h rfl
      obtain ⟨ff, hff⟩ := Option.isSome_iff_exists.mp hf
      obtain ⟨loc, hloc⟩ := Option.isSome_iff_exists.mp hl
      subst hff
      subst hloc
      simp [SQLStatement.to_string]
  · rintro ff loc rfl rfl rfl
    simp only [SQLStatement.to_string]
    by_cases hc : constraints.isEmpty <;> by_cases ho : with_options.isEmpty <;>
      simp [hc, ho, ← String.append_assoc]

/-- C1 witness: the spec's canonical external table renders successfully. -/
theorem C1_create_table_external_total_witness :
    SQLStatement.to_string (.SQLCreateTable ⟨["t"]⟩
        [⟨"a", ⟨"INT"⟩, false, false, none, true⟩] [] [] true
        (some FileFormat.PARQUET) (some "/data")) =
      some "CREATE EXTERNAL TABLE t (a INT) STORED AS PARQUET LOCATION '/data'" :=
  ((C1_create_table_external_total ⟨["t"]⟩ [⟨"a", ⟨"INT"⟩, false, false, none, true⟩]
      [] [] true (some FileFormat.PARQUET) (some "/data")
      (fun _ => ⟨rfl, rfl⟩)).2 FileFormat.PARQUET "/data" rfl rfl rfl).trans (by rfl)

/-- C2: the claim says a `CASE` whose conditions and results lists have
different lengths is rejected at construction and never rendered; in the
code `SQLCase` is freely constructible with mismatched lists and the
renderer still produces output, silently dropping the surplus condition:
this tree with one condition and no results renders as `"CASE END"`. -/
theorem C2_case_mismatch_rendered :
    ASTNode.to_string (.SQLCase none [.SQLIdentifier "c"] [] none) = "CASE END" := by
  simp [ASTNode.to_string, ASTNode.whenThenList, String.join]

/-- C3 counterexample: the canonical four-value COPY input renders with all
values joined by tabs into a single data line, not with rows separated by
newlines, so the output differs from the claim's canonical example
`"COPY t (a, b) FROM stdin; \n1\t\N\n2\t3\n\."` (byte for byte). -/
theorem C3_copy_counterexample :
    SQLStatement.to_string (.SQLCopy ⟨["t"]⟩ ["a", "b"]
        [some "1", none, some "2", some "3"]) =
      some "COPY t (a, b) FROM stdin; \n1\t\\N\t2\t3\n\\." ∧
    "COPY t (a, b) FROM stdin; \n1\t\\N\t2\t3\n\\." ≠
      "COPY t (a, b) FROM stdin; \n1\t\\N\n2\t3\n\\." :=
  ⟨rfl, by decide⟩

/-- C3 amended: a COPY with zero values renders exactly
`"COPY <table> FROM stdin; \n\."` (no row-data line, literal backslash-dot
terminator); with values present, each `None` renders as the two-character
token `\N` and each `Some` renders literally, and ALL values are joined by
tabs into one single data line (the flat value list carries no row
structure), followed by a newline and the `\.` terminator. -/
theorem C3_copy_render_amended :
    (∀ t : SQLObjectName, SQLStatement.to_string (.SQLCopy t [] []) =
      some ("COPY " ++ t.to_string ++ " FROM stdin; \n\\.")) ∧
    (∀ (t : SQLObjectName) (cols : List SQLIdent) (vals : List (Option String)),
      vals ≠ [] →
      SQLStatement.to_string (.SQLCopy t cols vals) =
        some ("COPY " ++ t.to_string ++
          (if cols.isEmpty then "" else
            " (" ++ String.intercalate ", " cols ++ ")") ++
          " FROM stdin; " ++ "\n" ++
          String.intercalate "\t" (vals.map (fun v => v.getD "\\N")) ++
          "\n\\.")) := by
  constructor
  · intro t
    simp [SQLStatement.to_string, String.append_assoc]
  · intro t cols vals hv
    have hvals : vals.isEmpty = false := by
      cases vals with
      | nil => exact absurd rfl hv
      | cons a rest => rfl
    simp only [SQLStatement.to_string, hvals, comma_separated_string, List.map_id']
    by_cases hc : cols.isEmpty <;> simp [hc, ← String.append_assoc]

/-- C3 witness: the amended non-empty-values clause evaluated at the
canonical four-value input. -/
theorem C3_copy_render_amended_witness :
    SQLStatement.to_string (.SQLCopy ⟨["t"]⟩ ["a", "b"]
        [some "1", none, some "2", some "3"]) =
      some "COPY t (a, b) FROM stdin; \n1\t\\N\t2\t3\n\\." :=
  (C3_copy_render_amended.2 ⟨["t"]⟩ ["a", "b"]
      [some "1", none, some "2", some "3"] (by decide)).trans (by rfl)

/-- C4: every `FileFormat` value renders as its own keyword spelling, except
that the `JSONFILE` variant renders as the string `"TEXTFILE"` rather than
`"JSONFILE"`. -/
theorem C4_file_format_rendering :
    (∀ f : FileFormat,
      f.to_string = if f = .JSONFILE then "TEXTFILE" else f.variantName) ∧
    FileFormat.to_string .JSONFILE ≠ "JSONFILE" := by
  constructor
  · intro f
    cases f <;> simp [FileFormat.to_string, FileFormat.variantName]
  · decide

/-- C5: rendering a transaction yields `"BEGIN;\n"`, then the rendered
member statements in list order joined by `"\n"`, then `"\nCOMMIT;"`; the
list-rendering helper is exactly `mapM` of the statement renderer, and the
empty statement list renders as `"BEGIN;\n\nCOMMIT;"`. -/
theorem C5_transaction_render :
    (∀ stmts : List SQLStatement,
      SQLStatement.listToString stmts = stmts.mapM SQLStatement.to_string) ∧
    (∀ (stmts : List SQLStatement) (rs : List String),
      SQLStatement.listToString stmts = some rs →
      SQLStatement.to_string (.SQLTransaction stmts) =
        some ("BEGIN;\n" ++ String.intercalate "\n" rs ++ "\nCOMMIT;")) ∧
    SQLStatement.to_string (.SQLTransaction []) = some "BEGIN;\n\nCOMMIT;" := by
  refine ⟨?_, ?_, rfl⟩
  · intro stmts
    induction stmts with
    | nil => rfl
    | cons s rest ih =>
      rw [List.mapM_cons, ← ih]
      simp only [SQLStatement.listToString]
      cases SQLStatement.to_string s <;> cases SQLStatement.listToString rest <;> rfl
  · intro stmts rs h
    simp [SQLStatement.to_string, h]

/-- C5 witness: a two-statement transaction rendered concretely. -/
theorem C5_transaction_render_witness :
    SQLStatement.to_string
        (.SQLTransaction [.SQLQuery ⟨"STMT1"⟩, .SQLQuery ⟨"STMT2"⟩]) =
      some ("BEGIN;\n" ++ String.intercalate "\n" ["STMT1", "STMT2"] ++ "\nCOMMIT;") :=
  C5_transaction_render.2.1 [.SQLQuery ⟨"STMT1"⟩, .SQLQuery ⟨"STMT2"⟩]
    ["STMT1", "STMT2"] rfl

/-- C6: a CREATE VIEW statement renders as `"CREATE"`, plus
`" MATERIALIZED"` iff the materialized flag is set, then `" VIEW <name>"`,
then the `" WITH (<options>)"` clause iff options are non-empty, then the
`" (<cols>)"` clause iff the column list is non-empty, then
`" AS <query>"` — the options clause preceding the column clause. -/
theorem C6_create_view_render (name : SQLObjectName) (cols : List SQLIdent)
    (query : SQLQuery) (materialized : Bool) (with_options : List SQLOption) :
    SQLStatement.to_string (.SQLCreateView name cols query materialized with_options) =
      some ("CREATE" ++ (if materialized then " MATERIALIZED" else "") ++
        " VIEW " ++ name.to_string ++
        (if with_options.isEmpty then "" else
          " WITH (" ++ comma_separated_string SQLOption.to_string with_options ++ ")") ++
        (if cols.isEmpty then "" else
          " (" ++ String.intercalate ", " cols ++ ")") ++
        " AS " ++ query.to_string) := by
  simp only [SQLStatement.to_string, comma_separated_string, List.map_id']

/-- C9: parsing the rendered keyword of any window-frame unit recovers the
same value: `from_str (to_string u) = Ok u`. -/
theorem C9_frame_units_roundtrip (u : SQLWindowFrameUnits) :
    SQLWindowFrameUnits.from_str u.to_string = .ok u := by
  cases u <;> rfl

/-- C9 witness: the roundtrip at the concrete value `Rows`. -/
theorem C9_frame_units_roundtrip_witness :
    SQLWindowFrameUnits.from_str (SQLWindowFrameUnits.to_string .Rows) = .ok .Rows :=
  C9_frame_units_roundtrip .Rows

/-- C10: rendering a `CASE` expression is total even when the conditions and
results lists have different lengths: it emits one
`" WHEN <cond> THEN <result>"` per zipped pair — exactly
`min (length conditions) (length results)` pairs, in order — silently
ignoring the surplus of the longer list. -/
theorem C10_case_truncation (operand : Option ASTNode) (conds results : List ASTNode)
    (els : Option ASTNode) :
    ASTNode.to_string (.SQLCase operand conds results els) =
      "CASE" ++
        (match operand with
         | some o => " " ++ o.to_string
         | none => "") ++
        String.join ((conds.zip results).map
          (fun p => " WHEN " ++ p.1.to_string ++ " THEN " ++ p.2.to_string)) ++
        (match els with
         | some e => " ELSE " ++ e.to_string
         | none => "") ++
        " END" ∧
    (conds.zip results).length = min conds.length results.length := by
  constructor
  · cases operand <;> cases els <;>
      simp only [ASTNode.to_string, ASTNode.whenThenList_eq_zip]
  · exact List.length_zip conds results

/-- C7: list-valued clauses render by complete omission when empty and by
`", "`-joining with no trailing separator when non-empty: a singleton list
renders as its item and a longer list as head, `", "`, and the rest (the
separator appears only between items); an empty insert/copy column list,
update assignment list, create-table constraint/options list omits the
clause's keywords and punctuation entirely; a window spec omits the
`PARTITION BY` and `ORDER BY` segments when their lists are empty and
renders its frame with `BETWEEN <start> AND <end>` exactly when an end
bound is present and as `<units> <start>` otherwise. -/
theorem C7_list_clause_rendering :
    (∀ (α : Type) (f : α → String) (x : α), comma_separated_string f [x] = f x) ∧
    (∀ (α : Type) (f : α → String) (x y : α) (rest : List α),
      comma_separated_string f (x :: y :: rest) =
        f x ++ ", " ++ comma_separated_string f (y :: rest)) ∧
    (∀ (pb : List ASTNode) (ob : List SQLOrderByExpr) (wf : Option SQLWindowFrame),
      SQLWindowSpec.to_string (.mk pb ob wf) =
        String.intercalate " "
          ((if pb.isEmpty then [] else
              ["PARTITION BY " ++ comma_separated_string ASTNode.to_string pb]) ++
           (if ob.isEmpty then [] else
              ["ORDER BY " ++ comma_separated_string SQLOrderByExpr.to_string ob]) ++
           (match wf with
            | none => []
            | some f =>
              match f.end_bound with
              | some e => [f.units.to_string ++ " BETWEEN " ++
                  f.start_bound.to_string ++ " AND " ++ e.to_string]
              | none => [f.units.to_string ++ " " ++ f.start_bound.to_string]))) ∧
    (∀ (t : SQLObjectName) (cols : List SQLIdent) (src : SQLQuery),
      SQLStatement.to_string (.SQLInsert t cols src) =
        some ("INSERT INTO " ++ t.to_string ++ " " ++
          (if cols.isEmpty then "" else
            "(" ++ String.intercalate ", " cols ++ ") ") ++ src.to_string)) ∧
    (∀ (t : SQLObjectName) (cols : List SQLIdent) (vals : List (Option String)),
      SQLStatement.to_string (.SQLCopy t cols vals) =
        some ("COPY " ++ t.to_string ++
          (if cols.isEmpty then "" else
            " (" ++ String.intercalate ", " cols ++ ")") ++
          " FROM stdin; " ++
          (if vals.isEmpty then "" else
            "\n" ++ String.intercalate "\t" (vals.map (fun v => v.getD "\\N"))) ++
          "\n\\.")) ∧
    (∀ (t : SQLObjectName) (asgns : List SQLAssignment) (sel : Option ASTNode),
      SQLStatement.to_string (.SQLUpdate t asgns sel) =
        some ("UPDATE " ++ t.to_string ++
          (if asgns.isEmpty then "" else
            " SET " ++ comma_separated_string SQLAssignment.to_string asgns) ++
          (match sel with
           | some s => " WHERE " ++ s.to_string
           | none => ""))) ∧
    (∀ (n : SQLObjectName) (cols : List SQLColumnDef)
        (constr : List TableConstraint) (opts : List SQLOption),
      SQLStatement.to_string (.SQLCreateTable n cols constr opts false none none) =
        some ("CREATE TABLE " ++ n.to_string ++ " (" ++
          comma_separated_string SQLColumnDef.to_string cols ++
          (if constr.isEmpty then "" else
            ", " ++ comma_separated_string TableConstraint.to_string constr) ++ ")" ++
          (if opts.isEmpty then "" else
            " WITH (" ++ comma_separated_string SQLOption.to_string opts ++ ")"))) := by
  refine ⟨?_, ?_, ?_, ?_, ?_, ?_, ?_⟩
  · intro α f x
    rfl
  · intro α f x y rest
    show String.intercalate.go (f x ++ ", " ++ f y) ", " (rest.map f) =
      f x ++ ", " ++ String.intercalate.go (f y) ", " (rest.map f)
    exact intercalate_go_acc ", " (f x ++ ", ") (f y) (rest.map f)
  · intro pb ob wf
    rcases wf with _ | ⟨u, sb, _ | e⟩ <;>
      simp only [SQLWindowSpec.to_string, ASTNode.listToString_eq_map,
        comma_separated_string]
  · intro t cols src
    rfl
  · intro t cols vals
    simp only [SQLStatement.to_string, comma_separated_string, List.map_id']
  · intro t asgns sel
    cases sel <;> rfl
  · intro n cols constr opts
    simp only [SQLStatement.to_string]
    by_cases hc : constr.isEmpty <;> by_cases ho : opts.isEmpty <;>
      simp [hc, ho, ← String.append_assoc]

/-- C8: the enumeration FromStr impls accept exactly the case-sensitive
keyword spellings with no partial matching: `"ROWS"`, `"RANGE"`, `"GROUPS"`
parse to their units and any other string — including the wrong-case
`"rows"` — produces a typed `ParserError` whose message names the offending
input (and, for frame units, the accepted set); likewise any string that is
no file-format keyword produces a typed error naming the input. -/
theorem C8_enum_parsing_exact :
    SQLWindowFrameUnits.from_str "ROWS" = .ok .Rows ∧
    SQLWindowFrameUnits.from_str "RANGE" = .ok .Range ∧
    SQLWindowFrameUnits.from_str "GROUPS" = .ok .Groups ∧
    SQLWindowFrameUnits.from_str "rows" =
      .error (.ParserError "Expected ROWS, RANGE, or GROUPS, found: rows") ∧
    (∀ s : String, s ≠ "ROWS" → s ≠ "RANGE" → s ≠ "GROUPS" →
      SQLWindowFrameUnits.from_str s =
        .error (.ParserError ("Expected ROWS, RANGE, or GROUPS, found: " ++ s))) ∧
    (∀ s : String,
      s ∉ ["TEXTFILE", "SEQUENCEFILE", "ORC", "PARQUET", "AVRO", "RCFILE", "JSONFILE"] →
      FileFormat.from_str s = .error (.ParserError ("Unexpected file format: " ++ s))) := by
  refine ⟨rfl, rfl, rfl, rfl, ?_, ?_⟩
  · intro s h1 h2 h3
    simp only [SQLWindowFrameUnits.from_str, if_neg h1, if_neg h2, if_neg h3]
  · intro s hs
    simp only [List.mem_cons, List.not_mem_nil, or_false, not_or] at hs
    obtain ⟨h1, h2, h3, h4, h5, h6, h7⟩ := hs
    simp only [FileFormat.from_str, if_neg h1, if_neg h2, if_neg h3, if_neg h4,
      if_neg h5, if_neg h6, if_neg h7]

/-- C8 witness: the two universally quantified error clauses evaluated at
the wrong-case input `"rows"` and the unknown format `"jsonfile"`. -/
theorem C8_enum_parsing_exact_witness :
    SQLWindowFrameUnits.from_str "rows" =
      .error (.ParserError ("Expected ROWS, RANGE, or GROUPS, found: " ++ "rows")) ∧
    FileFormat.from_str "jsonfile" =
      .error (.ParserError ("Unexpected file format: " ++ "jsonfile")) :=
  ⟨C8_enum_parsing_exact.2.2.2.2.1 "rows" (by decide) (by decide) (by decide),
   C8_enum_parsing_exact.2.2.2.2.2 "jsonfile" (by decide)⟩

end SqlAst
